import Mathlib

/-!
Verification of the bored-email digest pipeline (Python sources:
`models.py`, `email_summarizer.py`, `email_composer.py`, `email_fetcher.py`).

Shallow embedding conventions:
* Python `datetime` values are modelled as `Int` timestamps (datetime
  comparison is a total order; only comparison is used by the code).
* The OpenAI chat call of `summarize_email` is external; its observable
  outcome is the response text handed to `json.loads`.  Because the call
  uses `response_format = json_object`, the content is either a JSON
  object or unparseable text, so a response is modelled as either
  `malformed` (raises `json.JSONDecodeError` in `json.loads`) or an
  object with three optional fields (read via `dict.get` with defaults).
* A per-message summarization call that raises (network error, quota
  error) is modelled by an oracle returning `Except Unit LLMResponse`.
-/

/-- `EmailMessage` from `models.py`. -/
structure EmailMessage where
  message_id : String
  sender : String
  recipients : List String
  subject : String
  body : String
  date : Int
  labels : List String := []
  attachments : List String := []
deriving Repr, DecidableEq

/-- `EmailSummary` from `models.py`. -/
structure EmailSummary where
  message_id : String
  sender : String
  subject : String
  key_points : List String
  action_items : List String
  priority : String
  date : Int
deriving Repr, DecidableEq

/-- `DigestReport` from `models.py`.  The `report_id` and `date` fields are
default-generated from the wall clock in the source; they are passed
explicitly here. -/
structure DigestReport where
  report_id : String
  period : String
  date : Int
  email_count : Nat
  high_priority_count : Nat
  summaries : List EmailSummary
deriving Repr, DecidableEq

/-- Observable outcome of the summarization response text handed to
`json.loads` in `summarize_email` (`email_summarizer.py` lines 50-53).
`malformed` is content on which `json.loads` raises `JSONDecodeError`;
`obj` is a parsed JSON object, each field `none` when the key is absent. -/
inductive LLMResponse where
  | malformed (raw : String)
  | obj (key_points : Option (List String)) (action_items : Option (List String))
      (priority : Option String)
deriving Repr, DecidableEq

/-- `EmailSummarizer.summarize_email` (`email_summarizer.py` lines 14-71),
from the `json.loads` of the response onward: on `JSONDecodeError` the
fallback dict is substituted, then the `EmailSummary` is built with
`summary_data.get(key, default)` for the three content fields. -/
def summarize_email (email : EmailMessage) (resp : LLMResponse) : EmailSummary :=
  let summary_data :
      Option (List String) × Option (List String) × Option String :=
    match resp with
    | .malformed _ => (some ["Failed to parse email content"], some [], some "Low")
    | .obj kp ai pr => (kp, ai, pr)
  { message_id := email.message_id
    sender := email.sender
    subject := email.subject
    key_points := summary_data.1.getD []
    action_items := summary_data.2.1.getD []
    priority := summary_data.2.2.getD "Low"
    date := email.date }

/-- `priority_order.get(x.priority, 3)` with
`priority_order = \x7b"High": 0, "Medium": 1, "Low": 2\x7d`
(`email_summarizer.py` lines 86-87). -/
def priority_order (p : String) : Nat :=
  if p = "High" then 0 else if p = "Medium" then 1 else if p = "Low" then 2 else 3

/-- The sort key `(priority_order.get(x.priority, 3), x.date)` of
`email_summarizer.py` line 87. -/
def summaryKey (s : EmailSummary) : Nat × Int :=
  (priority_order s.priority, s.date)

/-- The ordering realised by `summaries.sort(key=..., reverse=True)`
(`email_summarizer.py` line 87): `x` may precede `y` iff the composite
key of `x` is lexicographically greater than or equal to that of `y`
(Python sorts the keys ascending, then `reverse=True` flips the
direction while keeping the sort stable). -/
def sortBefore (x y : EmailSummary) : Prop :=
  (summaryKey y).1 < (summaryKey x).1 ∨
    ((summaryKey x).1 = (summaryKey y).1 ∧ (summaryKey y).2 ≤ (summaryKey x).2)

instance : DecidableRel sortBefore := fun x y => by
  unfold sortBefore; infer_instance

/-- Python's `list.sort` is stable, so any stable sort with the same
comparator computes the same list; a stable insertion sort is used. -/
def pySortRev (l : List EmailSummary) : List EmailSummary :=
  List.insertionSort sortBefore l

/-- `EmailSummarizer.summarize_emails` (`email_summarizer.py` lines
73-89): per-message `try`/`except` appends the summary on success and
`continue`s on an exception, then the batch is sorted in place.  The
oracle gives, per message, either the response of the API call or an
exception raised by it. -/
def summarize_emails (oracle : EmailMessage → Except Unit LLMResponse)
    (emails : List EmailMessage) : List EmailSummary :=
  let summaries := emails.filterMap fun e =>
    match oracle e with
    | .ok r => some (summarize_email e r)
    | .error _ => none
  pySortRev summaries

/-- `EmailComposer.create_digest_report` (`email_composer.py` lines
15-24); `report_id` and `now` stand for the wall-clock defaults of the
pydantic model. -/
def create_digest_report (summaries : List EmailSummary) (period : String)
    (report_id : String) (now : Int) : DigestReport :=
  { report_id := report_id
    period := period
    date := now
    email_count := summaries.length
    high_priority_count := summaries.countP fun s => s.priority == "High"
    summaries := summaries }

/-- The High section selected by `format_html_email`
(`email_composer.py` line 77). -/
def high_priority (digest : DigestReport) : List EmailSummary :=
  digest.summaries.filter fun s => s.priority == "High"

/-- The Medium section selected by `format_html_email`
(`email_composer.py` line 86). -/
def medium_priority (digest : DigestReport) : List EmailSummary :=
  digest.summaries.filter fun s => s.priority == "Medium"

/-- The Low section selected by `format_html_email`
(`email_composer.py` line 95). -/
def low_priority (digest : DigestReport) : List EmailSummary :=
  digest.summaries.filter fun s => s.priority == "Low"

/-- The candidate encoding list built by `_decode_text`
(`email_fetcher.py` lines 40-44): `[charset] if charset else []` (a
`None` or empty-string charset contributes nothing, both being falsy)
extended with the four fixed fallbacks, then filtered for truthiness
(the fallback names are non-empty, so the filter only drops a falsy
charset, already excluded). -/
def pyDecodeCandidates (charset : Option String) : List String :=
  (match charset with
   | some c => if c = "" then [] else [c]
   | none => []) ++ ["utf-8", "latin-1", "iso-8859-1", "windows-1252"]

/-- The `for encoding in encodings` loop of `_decode_text`
(`email_fetcher.py` lines 47-55): return the first decode that does not
raise; if every attempt raises, decode UTF-8 with `errors='replace'`.
`dec e b = none` models `b.decode(e)` raising `UnicodeDecodeError` or
`LookupError`; `rep` models `b.decode('utf-8', errors='replace')`,
which never raises. -/
def tryDecodings (dec : String → List Nat → Option String)
    (rep : List Nat → String) (b : List Nat) : List String → String
  | [] => rep b
  | e :: rest =>
    match dec e b with
    | some s => s
    | none => tryDecodings dec rep b rest

/-- `EmailFetcher._decode_text` (`email_fetcher.py` lines 34-55) on a
bytes input (the `isinstance(text_bytes, str)` passthrough for text
input is outside the byte-string claims). -/
def _decode_text (dec : String → List Nat → Option String)
    (rep : List Nat → String) (charset : Option String) (b : List Nat) : String :=
  tryDecodings dec rep b (pyDecodeCandidates charset)

/-- Modelled from the spec's words for comparison with `_decode_text`:
"attempt decode using (a) the charset declared on the part, (b) UTF-8,
(c) Latin-1, (d) ISO-8859-1, (e) Windows-1252, in that order; if all
fail, decode UTF-8 with invalid-byte substitution". -/
def decodeSpec (dec : String → List Nat → Option String)
    (rep : List Nat → String) (charset : Option String) (b : List Nat) : String :=
  match (charset.toList ++ ["utf-8", "latin-1", "iso-8859-1", "windows-1252"]).findSome?
      (fun e => dec e b) with
  | some s => s
  | none => rep b

/-- The truncation `email_ids[-min(len(email_ids), max):]` of
`email_fetcher.py` line 224, with Python slice semantics: for `k > 0`
the start index of `l[-k:]` is `len(l) - k` (here `k ≤ len(l)` always,
since `k = min(len(l), max)`), while `-0 == 0`, so for `k = 0` the
slice `l[0:]` is the whole list. -/
def pySliceLast (l : List α) (cap : Nat) : List α :=
  let k := min l.length cap
  if k = 0 then l else l.drop (l.length - k)

/-- Events observable on the IMAP connection during
`fetch_recent_emails_imap`. -/
inductive ImapEvent where
  | connect
  | login
  | selectInbox
  | searchEv
  | fetchEv (id : Nat)
  | closeEv
  | logoutEv
deriving Repr, DecidableEq

/-- Oracle for the external IMAP server in `fetch_recent_emails_imap`.
Each field is the outcome of the corresponding call: `.error ()` models
the call raising, `.ok` its return value.  `search` yields the status
(`true` for `"OK"`) and the identifier list `messages[0].split()`;
`fetchMsg` yields the per-identifier fetch status and, when the response
contains a tuple part, the message parsed from it (header decoding,
body extraction and attachment collection of lines 240-290 are folded
into the returned `EmailMessage`, as C7 only observes control flow). -/
structure ImapOracle where
  connect : Except Unit Unit
  login : Except Unit Unit
  selectInbox : Except Unit Unit
  search : Except Unit (Bool × List Nat)
  fetchMsg : Nat → Except Unit (Bool × Option EmailMessage)
  close : Except Unit Unit
  logout : Except Unit Unit

/-- The `for e_id in email_ids` loop of `fetch_recent_emails_imap`
(`email_fetcher.py` lines 226-297): each identifier is fetched inside
its own `try`; a raising fetch or a non-OK status is skipped and the
loop continues; a tuple response part contributes one parsed message. -/
def imapLoop (o : ImapOracle) : List Nat → List EmailMessage × List ImapEvent
  | [] => ([], [])
  | id :: rest =>
    let here : List EmailMessage :=
      match o.fetchMsg id with
      | .error _ => []
      | .ok (st, m) =>
        if st then
          match m with
          | some msg => [msg]
          | none => []
        else []
    let tail := imapLoop o rest
    (here ++ tail.1, .fetchEv id :: tail.2)

/-- `EmailFetcher.fetch_recent_emails_imap` (`email_fetcher.py` lines
196-305) as a trace-producing interpreter over the IMAP oracle.  The
whole body sits in one `try`: any raising step jumps to the outer
`except`, which logs and falls through to `return emails`.  The
`status != "OK"` and empty-identifier branches `return emails` directly
(lines 213-222).  `mail.close()` and `mail.logout()` (lines 299-300)
run only when the loop completes without an uncaught exception. -/
def fetch_recent_emails_imap (o : ImapOracle) (cap : Nat) :
    List EmailMessage × List ImapEvent :=
  match o.connect with
  | .error _ => ([], [.connect])
  | .ok _ =>
    match o.login with
    | .error _ => ([], [.connect, .login])
    | .ok _ =>
      match o.selectInbox with
      | .error _ => ([], [.connect, .login, .selectInbox])
      | .ok _ =>
        match o.search with
        | .error _ => ([], [.connect, .login, .selectInbox, .searchEv])
        | .ok (ok?, ids) =>
          if ok? = false then ([], [.connect, .login, .selectInbox, .searchEv])
          else if ids = [] then ([], [.connect, .login, .selectInbox, .searchEv])
          else
            let kept := pySliceLast ids cap
            let loopRes := imapLoop o kept
            let tr := [ImapEvent.connect, .login, .selectInbox, .searchEv] ++ loopRes.2
            match o.close with
            | .error _ => (loopRes.1, tr ++ [.closeEv])
            | .ok _ =>
              match o.logout with
              | .error _ => (loopRes.1, tr ++ [.closeEv, .logoutEv])
              | .ok _ => (loopRes.1, tr ++ [.closeEv, .logoutEv])

/-- Identifiers fetched for detail during an IMAP run, read off the
event trace. -/
def fetchedIds (tr : List ImapEvent) : List Nat :=
  tr.filterMap fun ev =>
    match ev with
    | .fetchEv id => some id
    | _ => none

/-- A fixed example message used to instantiate the claims. -/
def exMsg (mid : String) (d : Int) : EmailMessage :=
  { message_id := mid
    sender := "a@example.com"
    recipients := ["t@example.com"]
    subject := "subject"
    body := "body"
    date := d }

/-- Oracle for the four-message batch of the sort example: priorities
Low, High, Medium, High by message id. -/
def exOracle4 : EmailMessage → Except Unit LLMResponse := fun e =>
  .ok (.obj (some ["k1", "k2"]) (some [])
    (some (if e.message_id = "m1" then "Low"
           else if e.message_id = "m3" then "Medium" else "High")))

/-- C1: the spec claims High-priority summaries precede Medium and Low
ones.  The code sorts with `reverse=True` over the composite key
`(priority_rank, date)`, which orders the rank DESCENDING as well, so
Low (rank 2) comes out before Medium (rank 1) before High (rank 0),
contradicting both the spec and the code's own comment
"Sort summaries by priority (High > Medium > Low)": on the batch with
priorities [Low, High, Medium, High] and dates [10, 5, 7, 3] the result
order is [Low, Medium, High, High] (within High, dates descending). -/
theorem summarize_emails_low_sorted_first :
    (summarize_emails exOracle4
        [exMsg "m1" 10, exMsg "m2" 5, exMsg "m3" 7, exMsg "m4" 3]).map
        (fun s => (s.priority, s.date)) =
      [("Low", 10), ("Medium", 7), ("High", 5), ("High", 3)] := by
  decide

/-- C2 counterexample: an external response whose `priority` field is
present but outside the enumerated set is NOT coerced to Low — the code
passes it through via `summary_data.get("priority", "Low")`, so the
resulting summary's priority is none of High, Medium, Low. -/
theorem summarize_email_priority_escapes_enum :
    ¬ ((summarize_email (exMsg "c2" 0) (.obj none none (some "Urgent"))).priority = "High" ∨
       (summarize_email (exMsg "c2" 0) (.obj none none (some "Urgent"))).priority = "Medium" ∨
       (summarize_email (exMsg "c2" 0) (.obj none none (some "Urgent"))).priority = "Low") := by
  decide

/-- C2 amended: the priority of a summary is the response's `priority`
field passed through unchanged whenever the field is present (even
outside the enumerated set); it is "Low" exactly when the field is
missing or the response fails to parse. -/
theorem summarize_email_priority_passthrough (msg : EmailMessage)
    (resp : LLMResponse) :
    (summarize_email msg resp).priority =
      match resp with
      | .malformed _ => "Low"
      | .obj _ _ pr => pr.getD "Low" := by
  cases resp <;> rfl

/-- C3: `create_digest_report` returns a report whose `email_count` is
the length of the summaries list, whose `high_priority_count` is the
number of summaries with priority "High" (both 0 on the empty list, as
the universal statement instantiates), and whose summaries list is the
input list in input order (no re-sort). -/
theorem create_digest_report_counts_and_order (summaries : List EmailSummary)
    (period report_id : String) (now : Int) :
    (create_digest_report summaries period report_id now).email_count
        = summaries.length ∧
    (create_digest_report summaries period report_id now).high_priority_count
        = (summaries.filter fun s => s.priority = "High").length ∧
    (create_digest_report summaries period report_id now).summaries = summaries := by
  refine ⟨rfl, ?_, rfl⟩
  simp only [create_digest_report, List.countP_eq_length_filter]
  congr 1

/-- C4: on a response that fails JSON parsing, `summarize_email`
substitutes the degraded summary (`key_points =
["Failed to parse email content"]`, `action_items = []`,
`priority = "Low"`) instead of propagating the error, and on a
parseable object response each missing field defaults to `[]`, `[]`
and "Low" respectively.  Never raising is reflected by the embedding
being a total function into `EmailSummary`. -/
theorem summarize_email_malformed_and_missing_defaults (msg : EmailMessage)
    (raw : String) (kp ai : Option (List String)) (pr : Option String) :
    (summarize_email msg (.malformed raw)).key_points
        = ["Failed to parse email content"] ∧
    (summarize_email msg (.malformed raw)).action_items = [] ∧
    (summarize_email msg (.malformed raw)).priority = "Low" ∧
    (summarize_email msg (.obj none ai pr)).key_points = [] ∧
    (summarize_email msg (.obj kp none pr)).action_items = [] ∧
    (summarize_email msg (.obj kp ai none)).priority = "Low" :=
  ⟨rfl, rfl, rfl, rfl, rfl, rfl⟩

/-- C5: `summarize_emails` processes every message; the result is a
permutation of exactly the summaries of the messages whose
summarization call did not raise (each such message contributing the
summary of its own response, raising messages excluded), so its length
is the number of non-raising messages — four for a batch of five with
one failure, never zero and never five. -/
theorem summarize_emails_excludes_failures
    (oracle : EmailMessage → Except Unit LLMResponse)
    (emails : List EmailMessage) :
    (summarize_emails oracle emails).Perm
      (emails.filterMap fun e =>
        match oracle e with
        | .ok r => some (summarize_email e r)
        | .error _ => none) ∧
    (summarize_emails oracle emails).length =
      (emails.filterMap fun e =>
        match oracle e with
        | .ok r => some (summarize_email e r)
        | .error _ => none).length := by
  have h := List.perm_insertionSort sortBefore
    (emails.filterMap fun e =>
      match oracle e with
      | .ok r => some (summarize_email e r)
      | .error _ => none)
  exact ⟨h, h.length_eq⟩

/-- C9 counterexample: a parseable response missing `key_points` yields
a summary whose `key_points` defaults to `[]`, length 0, outside the
claimed 2-5 range — the code enforces no length bounds. -/
theorem summarize_email_key_points_too_few :
    ¬ (2 ≤ (summarize_email (exMsg "c9" 0)
            (.obj none (some []) (some "Low"))).key_points.length ∧
       (summarize_email (exMsg "c9" 0)
            (.obj none (some []) (some "Low"))).key_points.length ≤ 5) := by
  decide

/-- C9 amended: `key_points` is taken verbatim from the response (any
length, the prompt merely requests 2-5 points): the response's list
when present, `[]` when the field is missing, and the one-element
failure marker when the response fails to parse. -/
theorem summarize_email_key_points_passthrough (msg : EmailMessage)
    (resp : LLMResponse) :
    (summarize_email msg resp).key_points =
      match resp with
      | .malformed _ => ["Failed to parse email content"]
      | .obj kp _ _ => kp.getD [] := by
  cases resp <;> rfl

theorem imapLoop_snd (o : ImapOracle) :
    ∀ l : List Nat, (imapLoop o l).2 = l.map ImapEvent.fetchEv
  | [] => rfl
  | id :: rest => by
    simp only [imapLoop, List.map_cons]
    rw [imapLoop_snd o rest]

theorem fetchedIds_append (a b : List ImapEvent) :
    fetchedIds (a ++ b) = fetchedIds a ++ fetchedIds b := by
  simp [fetchedIds]

theorem fetchedIds_map_fetchEv (l : List Nat) :
    fetchedIds (l.map ImapEvent.fetchEv) = l := by
  induction l with
  | nil => rfl
  | cons id rest ih => simp only [List.map_cons, fetchedIds, List.filterMap_cons] at ih ⊢; simp [ih]

/-- The event trace of an IMAP run that passes a successful, non-empty
search: the connection-level events, one fetch per kept identifier,
then the close attempt, and the logout attempt when the close call did
not raise. -/
theorem fetch_trace_normal (o : ImapOracle) (cap : Nat) (ids : List Nat)
    (hc : o.connect = .ok ()) (hl : o.login = .ok ())
    (hs : o.selectInbox = .ok ()) (hq : o.search = .ok (true, ids))
    (hne : ids ≠ []) :
    (fetch_recent_emails_imap o cap).2 =
      [ImapEvent.connect, .login, .selectInbox, .searchEv]
        ++ (pySliceLast ids cap).map ImapEvent.fetchEv
        ++ ImapEvent.closeEv ::
            (match o.close with
             | .ok _ => [ImapEvent.logoutEv]
             | .error _ => []) := by
  unfold fetch_recent_emails_imap
  rw [hc, hl, hs, hq]
  simp only [Bool.true_eq_false, if_false, if_neg hne, imapLoop_snd]
  cases hcl : o.close with
  | error e => simp
  | ok u => cases hlo : o.logout with
    | error e2 => simp
    | ok u2 => simp

/-- Oracle of a run whose search matches one identifier; detail fetches
raise. -/
def oracleOneId : ImapOracle :=
  { connect := .ok ()
    login := .ok ()
    selectInbox := .ok ()
    search := .ok (true, [1])
    fetchMsg := fun _ => .error ()
    close := .ok ()
    logout := .ok () }

/-- C6 counterexample: with `max_emails_per_digest = 0` and one matched
identifier (more than the cap), the claim says no identifier is kept,
but `email_ids[-min(len, 0):]` is `email_ids[-0:] = email_ids[0:]`, the
whole list, so identifier 1 is still fetched for detail. -/
theorem imap_cap_zero_keeps_all :
    ImapEvent.fetchEv 1 ∈ (fetch_recent_emails_imap oracleOneId 0).2 := by
  decide

/-- C6 amended: whenever the configured cap is at least 1 and the
search matches more identifiers than the cap, the identifiers fetched
for detail are exactly the last cap-many of the server-ordered list
(the most recent), not the first cap-many; a cap of 0 instead keeps the
whole list, because the Python slice `[-0:]` starts at index 0. -/
theorem imap_truncation_keeps_most_recent (o : ImapOracle) (cap : Nat)
    (ids : List Nat) (hc : o.connect = .ok ()) (hl : o.login = .ok ())
    (hs : o.selectInbox = .ok ()) (hq : o.search = .ok (true, ids))
    (hcap : 0 < cap) (hlen : cap < ids.length) :
    fetchedIds (fetch_recent_emails_imap o cap).2
        = ids.drop (ids.length - cap) ∧
    (ids.drop (ids.length - cap)).length = cap := by
  have hne : ids ≠ [] := by
    intro h
    rw [h] at hlen
    simp at hlen
  constructor
  · rw [fetch_trace_normal o cap ids hc hl hs hq hne]
    rw [fetchedIds_append, fetchedIds_append, fetchedIds_map_fetchEv]
    have h4 : fetchedIds [ImapEvent.connect, .login, .selectInbox, .searchEv] = [] := rfl
    have htail : fetchedIds (ImapEvent.closeEv ::
        (match o.close with
         | .ok _ => [ImapEvent.logoutEv]
         | .error _ => [])) = [] := by
      cases o.close <;> rfl
    rw [h4, htail, List.nil_append, List.append_nil]
    unfold pySliceLast
    have hmin : min ids.length cap = cap := Nat.min_eq_right (Nat.le_of_lt hlen)
    rw [hmin]
    rw [if_neg (Nat.pos_iff_ne_zero.mp hcap)]
  · rw [List.length_drop]
    omega

/-- Oracle of a run whose search raises after a successful connection,
login and inbox selection. -/
def oracleSearchRaises : ImapOracle :=
  { connect := .ok ()
    login := .ok ()
    selectInbox := .ok ()
    search := .error ()
    fetchMsg := fun _ => .error ()
    close := .ok ()
    logout := .ok () }

/-- C7 counterexample: when the search call raises after a successful
connection, control jumps to the outer `except` (lines 302-303), which
only logs and returns — `mail.close()` and `mail.logout()` at lines
299-300 are inside the `try` and are never executed, so the session is
NOT released on this error path. -/
theorem imap_search_error_skips_release :
    ImapEvent.closeEv ∉ (fetch_recent_emails_imap oracleSearchRaises 50).2 ∧
    ImapEvent.logoutEv ∉ (fetch_recent_emails_imap oracleSearchRaises 50).2 := by
  decide

/-- C7 amended: the mailbox is closed, and then logged out when the
close call itself does not raise, only on runs that pass a successful
(status OK) search returning at least one identifier and raise no
exception in any connection-level step; on a failed search, an empty
search result, or an exception outside the per-message loop, the
function returns without releasing the session. -/
theorem imap_release_only_on_normal_completion (o : ImapOracle) (cap : Nat)
    (ids : List Nat) (hc : o.connect = .ok ()) (hl : o.login = .ok ())
    (hs : o.selectInbox = .ok ()) (hq : o.search = .ok (true, ids))
    (hne : ids ≠ []) :
    ImapEvent.closeEv ∈ (fetch_recent_emails_imap o cap).2 ∧
    (o.close = .ok () → ImapEvent.logoutEv ∈ (fetch_recent_emails_imap o cap).2) := by
  rw [fetch_trace_normal o cap ids hc hl hs hq hne]
  constructor
  · simp
  · intro hcl
    rw [hcl]
    simp

/-- Oracle of a normally completing run matching identifiers 1, 2, 3. -/
def oracleThreeIds : ImapOracle :=
  { connect := .ok ()
    login := .ok ()
    selectInbox := .ok ()
    search := .ok (true, [1, 2, 3])
    fetchMsg := fun _ => .ok (true, none)
    close := .ok ()
    logout := .ok () }

/-- Witness for the amended C6 theorem: three matched identifiers with a
cap of 2 fetch exactly the last two. -/
theorem imap_truncation_keeps_most_recent_witness :
    fetchedIds (fetch_recent_emails_imap oracleThreeIds 2).2 = [2, 3] :=
  (imap_truncation_keeps_most_recent oracleThreeIds 2 [1, 2, 3]
    rfl rfl rfl rfl (by decide) (by decide)).1.trans (by decide)

/-- Witness for the amended C7 theorem: on a normally completing run the
trace contains both the close and the logout. -/
theorem imap_release_only_on_normal_completion_witness :
    ImapEvent.closeEv ∈ (fetch_recent_emails_imap oracleThreeIds 50).2 ∧
    ImapEvent.logoutEv ∈ (fetch_recent_emails_imap oracleThreeIds 50).2 := by
  have h := imap_release_only_on_normal_completion oracleThreeIds 50 [1, 2, 3]
    rfl rfl rfl rfl (by decide)
  exact ⟨h.1, h.2 rfl⟩

theorem tryDecodings_eq_findSome (dec : String → List Nat → Option String)
    (rep : List Nat → String) (b : List Nat) :
    ∀ l : List String, tryDecodings dec rep b l =
      match l.findSome? (fun e => dec e b) with
      | some s => s
      | none => rep b := by
  intro l
  induction l with
  | nil => rfl
  | cons e rest ih =>
    simp only [tryDecodings, List.findSome?_cons]
    cases dec e b with
    | none => simpa using ih
    | some s => rfl

/-- C8: `_decode_text` tries the declared charset, then UTF-8, Latin-1,
ISO-8859-1 and Windows-1252 in that order, returns the output of the
first decode attempt that does not raise, and resorts to the UTF-8
invalid-byte-substitution decode only when every candidate fails —
stated as equality with `decodeSpec`, the literal transcription of the
spec's chain.  Never raising is reflected by the embedding being a
total function into `String`.  The hypothesis records that the empty
string names no codec (in Python, `bytes.decode('')` raises
`LookupError`), closing the gap between the code's truthiness test
`if charset` and the spec's presence test. -/
theorem decode_text_matches_spec_chain (dec : String → List Nat → Option String)
    (rep : List Nat → String) (charset : Option String) (b : List Nat)
    (hempty : ∀ bs, dec "" bs = none) :
    _decode_text dec rep charset b = decodeSpec dec rep charset b := by
  unfold _decode_text decodeSpec pyDecodeCandidates
  rw [tryDecodings_eq_findSome]
  cases charset with
  | none => rfl
  | some c =>
    by_cases hc : c = ""
    · subst hc
      simp [Option.toList, List.findSome?_cons, hempty b]
    · simp [hc, Option.toList]

/-- Witness for the C8 theorem: a declared charset unknown to the
oracle, bytes only Latin-1 can decode. -/
theorem decode_text_matches_spec_chain_witness :
    _decode_text (fun e _ => if e = "latin-1" then some "decoded" else none)
        (fun _ => "replaced") (some "koi8-r") [255]
      = decodeSpec (fun e _ => if e = "latin-1" then some "decoded" else none)
        (fun _ => "replaced") (some "koi8-r") [255] :=
  decode_text_matches_spec_chain
    (fun e _ => if e = "latin-1" then some "decoded" else none)
    (fun _ => "replaced") (some "koi8-r") [255] (fun _ => rfl)

/-- C10: the three sections rendered by `format_html_email` are the
order-preserving sublists of the report's summaries whose priority is
exactly "High", "Medium" and "Low" respectively; a summary with any
other priority string is counted in `email_count` (which is the full
length of the summaries list) yet belongs to none of the three
sections. -/
theorem digest_sections_partition (summaries : List EmailSummary)
    (period report_id : String) (now : Int) :
    (high_priority (create_digest_report summaries period report_id now)).Sublist
        summaries ∧
    (medium_priority (create_digest_report summaries period report_id now)).Sublist
        summaries ∧
    (low_priority (create_digest_report summaries period report_id now)).Sublist
        summaries ∧
    (create_digest_report summaries period report_id now).email_count
        = summaries.length ∧
    ∀ s ∈ summaries, s.priority ≠ "High" → s.priority ≠ "Medium" →
      s.priority ≠ "Low" →
      s ∉ high_priority (create_digest_report summaries period report_id now) ∧
      s ∉ medium_priority (create_digest_report summaries period report_id now) ∧
      s ∉ low_priority (create_digest_report summaries period report_id now) := by
  refine ⟨List.filter_sublist summaries, List.filter_sublist summaries,
    List.filter_sublist summaries, rfl, ?_⟩
  intro s _ h1 h2 h3
  refine ⟨?_, ?_, ?_⟩ <;>
    simp [high_priority, medium_priority, low_priority, create_digest_report,
      List.mem_filter, h1, h2, h3]

/-- A summary whose priority string is outside the enumerated set. -/
def urgentSummary : EmailSummary :=
  { message_id := "w"
    sender := "a@example.com"
    subject := "s"
    key_points := ["k1", "k2"]
    action_items := []
    priority := "Urgent"
    date := 0 }

/-- Witness for the C10 theorem: a report holding one summary of
priority "Urgent" renders it in no section. -/
theorem digest_sections_partition_witness :
    urgentSummary ∉
        high_priority (create_digest_report [urgentSummary] "morning" "rid" 0) ∧
    urgentSummary ∉
        medium_priority (create_digest_report [urgentSummary] "morning" "rid" 0) ∧
    urgentSummary ∉
        low_priority (create_digest_report [urgentSummary] "morning" "rid" 0) :=
  (digest_sections_partition [urgentSummary] "morning" "rid" 0).2.2.2.2
    urgentSummary (by decide) (by decide) (by decide) (by decide)
